import Mathlib

/-!
Verification of the snapchat-memory-downloader pipeline (src/main.py).

Python strings are modelled as lists of unicode codepoints (`Str := List Nat`);
`codes` turns a Lean string literal into that representation.  Python's
`str.lower`/`str.upper` perform full Unicode case mapping (a codepoint can map
to several); they are modelled per codepoint, exactly on ASCII and on the
non-ASCII codepoints whose case images land in ASCII — which is what makes
case classification sensitive to non-ASCII filenames.  Rationals stand in for
Python floats, and external effects (the `float()` parser, `zoneinfo`
localisation, the exiftool engine, the network) are threaded as explicit
oracle parameters.
-/

namespace SnapDL

/-- Python strings as codepoint lists. -/
abbrev Str := List Nat

/-- Codepoints of a Lean string literal, for readable constants. -/
def codes (s : String) : Str := s.toList.map Char.toNat

/-- One codepoint's image under Python `str.lower()` (full case mapping, so a
list: lowering can expand a character).  Exact on ASCII and on the non-ASCII
codepoints whose lowercase reaches into ASCII (U+212A KELVIN SIGN → k,
U+0130 İ → i followed by combining U+0307); identity on the rest of Unicode,
a documented simplification for codepoints whose case images stay outside the
ASCII extension alphabet. -/
def pyLowerChar (n : Nat) : List Nat :=
  if 65 ≤ n ∧ n ≤ 90 then [n + 32]
  else if n = 8490 then [107]
  else if n = 304 then [105, 775]
  else [n]

/-- One codepoint's image under Python `str.upper()`.  Exact on ASCII and on
the non-ASCII codepoints with ASCII uppercase images (U+0131 ı → I,
U+017F ſ → S, U+00DF ß → SS); identity on the rest of Unicode. -/
def pyUpperChar (n : Nat) : List Nat :=
  if 97 ≤ n ∧ n ≤ 122 then [n - 32]
  else if n = 305 then [73]
  else if n = 383 then [83]
  else if n = 223 then [83, 83]
  else [n]

/-- Model of Python `s.lower()`. -/
def pyLower (s : Str) : Str := s.flatMap pyLowerChar

/-- Model of Python `s.upper()`. -/
def pyUpper (s : Str) : Str := s.flatMap pyUpperChar

/-- src/main.py lines 23-27: the fixed tuple `SUPPORTED_TYPES`, in declared order. -/
def SUPPORTED_TYPES : List Str :=
  [codes ".jpg", codes ".jpeg", codes ".heic", codes ".mp4",
   codes ".mov", codes ".png", codes ".avi", codes ".wmv",
   codes ".webp", codes ".mkv", codes ".m4v"]

/-- src/main.py line 28: the fixed tuple `VIDEO_EXTENSIONS`. -/
def VIDEO_EXTENSIONS : List Str :=
  [codes ".mp4", codes ".mov", codes ".avi", codes ".wmv", codes ".mkv", codes ".m4v"]

/-- src/main.py lines 31-36: `is_supported_file` — loop over `SUPPORTED_TYPES`,
return `True` on the first `endswith` hit, `False` after the loop. -/
def is_supported_file (filename : Str) : Bool :=
  SUPPORTED_TYPES.any (fun ext => ext.isSuffixOf (pyLower filename))

/-- src/main.py lines 39-40: `is_video_file` — `lower().endswith(VIDEO_EXTENSIONS)`
(a tuple argument to `endswith` means "ends with any of them"). -/
def is_video_file (filename : Str) : Bool :=
  VIDEO_EXTENSIONS.any (fun ext => ext.isSuffixOf (pyLower filename))

/-- Python `ext.lstrip('.')`: drop leading dot codepoints (46). -/
def lstripDot (s : Str) : Str := s.dropWhile (fun c => c == 46)

/-- src/main.py lines 315-321: default extension from the (already lowercased)
media type, overridden by the first member of `SUPPORTED_TYPES` that the
lowercased URL ends with. -/
def inferExtension (url : Str) (media_type : Str) : Str :=
  let ext0 : Str := if media_type == codes "video" then codes "mp4" else codes "jpg"
  match SUPPORTED_TYPES.find? (fun ext => ext.isSuffixOf (pyLower url)) with
  | some ext => lstripDot ext
  | none => ext0

/- ### Metadata translator and verifier (src/main.py lines 43-176) -/

/-- A value in a tag map.  `pairStr a b` stands for the Python format string
`f"{a:.6f}, {b:.6f}"` and `tripleStr a b c` for `f"{a:.6f} {b:.6f} {c:.6f}"`;
the numeric payload is kept structured since no claim concerns the decimal
rendering itself. -/
inductive TagVal
  | str (s : Str)
  | num (q : ℚ)
  | pairStr (a b : ℚ)
  | tripleStr (a b c : ℚ)
deriving DecidableEq

/-- A value found when re-reading metadata: either something Python `float()`
accepts (carried as the parsed rational) or something it raises on. -/
inductive MetaVal
  | num (q : ℚ)
  | raw
deriving DecidableEq

/-- Python `float()` applied to a re-read metadata value. -/
def parseMetaFloat : MetaVal → Option ℚ
  | .num q => some q
  | .raw => none

/-- External effects of the pipeline, threaded explicitly:
`parse_float` is Python `float()` on a string (`none` = raises),
`strptime_ok` is whether `datetime.strptime(date, '%Y:%m:%d %H:%M:%S')` succeeds,
`localize` / `utc_offset` are the America/Toronto zoneinfo conversion producing
`local_date_str` and `offset_str` (src/main.py lines 57-67),
`set_tags_ok` is whether `et.set_tags` succeeds on a path, and
`get_metadata` is `et.get_metadata([file])` (`none` = raises, otherwise the
returned list of per-file tag dictionaries). -/
structure Env where
  parse_float : Str → Option ℚ
  strptime_ok : Str → Bool
  localize : Str → Str
  utc_offset : Str → Str
  set_tags_ok : Str → Bool
  get_metadata : Str → Option (List (List (String × MetaVal)))

/-- Python `date.replace(' ', 'T')` followed by appending `"Z"`
(src/main.py line 78). -/
def gpsDateTime (date : Str) : Str :=
  (date.map (fun c => if c == 32 then 84 else c)) ++ codes "Z"

/-- src/main.py lines 71-84: the video tag map. -/
def video_tags (date local_date_str : Str) (lat_float lon_float : ℚ) :
    List (String × TagVal) :=
  [("QuickTime:GPSCoordinates", .pairStr |lat_float| |lon_float|),
   ("QuickTime:GPSLatitudeRef", .str (if 0 ≤ lat_float then codes "N" else codes "S")),
   ("QuickTime:GPSLongitudeRef", .str (if 0 ≤ lon_float then codes "E" else codes "W")),
   ("Keys:GPSCoordinates", .tripleStr lat_float lon_float 0),
   ("XMP:GPSLatitude", .num lat_float),
   ("XMP:GPSLongitude", .num lon_float),
   ("XMP:GPSDateTime", .str (gpsDateTime date)),
   ("CreateDate", .str local_date_str),
   ("TrackCreateDate", .str local_date_str),
   ("TrackModifyDate", .str local_date_str),
   ("MediaCreateDate", .str local_date_str),
   ("MediaModifyDate", .str local_date_str)]

/-- src/main.py lines 87-96: the image tag map. -/
def image_tags (local_date_str offset_str : Str) (lat_float lon_float : ℚ) :
    List (String × TagVal) :=
  [("DateTimeOriginal", .str local_date_str),
   ("CreateDate", .str local_date_str),
   ("GPSLatitude", .num |lat_float|),
   ("GPSLongitude", .num |lon_float|),
   ("GPSLatitudeRef", .str (if 0 ≤ lat_float then codes "N" else codes "S")),
   ("GPSLongitudeRef", .str (if 0 ≤ lon_float then codes "E" else codes "W")),
   ("OffsetTimeOriginal", .str offset_str),
   ("OffsetTime", .str offset_str)]

/-- src/main.py lines 43-110: `set_metadata`.  Returns the Python boolean
result together with the tag map passed to `et.set_tags` when that call was
made (`none` = the engine write was never invoked). -/
def set_metadata (env : Env) (file : Str) (date : Str) (lat lon : Option Str)
    (media_type : Str) : Bool × Option (List (String × TagVal)) :=
  if (codes ".png").isSuffixOf (pyLower file) then (true, none)
  else
    match lat.bind env.parse_float, lon.bind env.parse_float with
    | some lat_float, some lon_float =>
      if env.strptime_ok date then
        let local_date_str := env.localize date
        let offset_str := env.utc_offset date
        let tags :=
          if pyLower media_type == codes "video" || is_video_file file then
            video_tags date local_date_str lat_float lon_float
          else
            image_tags local_date_str offset_str lat_float lon_float
        (env.set_tags_ok file, some tags)
      else (false, none)
    | _, _ => (false, none)

/-- Python dictionary lookup `m[k]` guarded by `k in m`. -/
def dictGet (m : List (String × MetaVal)) (k : String) : Option MetaVal :=
  (m.find? (fun p => p.1 == k)).map Prod.snd

/-- The `for key in [...]: if key in file_meta: ... break` idiom: the value
under the first present key alias. -/
def lookupFirstKey (m : List (String × MetaVal)) : List String → Option MetaVal
  | [] => none
  | k :: rest =>
    match dictGet m k with
    | some v => some v
    | none => lookupFirstKey m rest

/-- src/main.py lines 113-176: `verify_metadata`. -/
def verify_metadata (env : Env) (file : Str) (date : Str) (lat lon : Option Str)
    (media_type : Str) : Bool :=
  match env.get_metadata file with
  | none => false
  | some metadata =>
    match metadata.head? with
    | none => false
    | some file_meta =>
      match lat.bind env.parse_float, lon.bind env.parse_float with
      | some latQ, some lonQ =>
        let expected_lat := |latQ|
        let expected_lon := |lonQ|
        if pyLower media_type == codes "video" || is_video_file file then
          ["QuickTime:GPSCoordinates", "Keys:GPSCoordinates", "XMP:GPSLatitude"].any
            (fun k => (dictGet file_meta k).isSome)
        else
          match lookupFirstKey file_meta ["EXIF:GPSLatitude", "Composite:GPSLatitude"],
                lookupFirstKey file_meta ["EXIF:GPSLongitude", "Composite:GPSLongitude"] with
          | some lat_meta, some lon_meta =>
            match parseMetaFloat lat_meta, parseMetaFloat lon_meta with
            | some fl, some fo =>
              let found_lat := |fl|
              let found_lon := |fo|
              let lat_match : Bool := decide (|found_lat - expected_lat| < 1/1000)
              let lon_match : Bool := decide (|found_lon - expected_lon| < 1/1000)
              if lat_match && lon_match then true else true
            | _, _ => false
          | _, _ => false
      | _, _ => false

/-- The creation/modification timestamp tag keys of the video tag map. -/
def timestamp_keys : List String :=
  ["CreateDate", "TrackCreateDate", "TrackModifyDate", "MediaCreateDate", "MediaModifyDate"]

/- ### Python string helpers used by the orchestrator -/

/-- Replacement loop of Python `s.replace(pat, repl)` for non-empty `pat`:
left-to-right, non-overlapping.  The fuel argument (instantiated with the
length of the scanned string, which bounds the number of steps) keeps the
recursion structural so the kernel can evaluate it. -/
def replaceGo (pat repl : Str) : Nat → Str → Str
  | _, [] => []
  | 0, s => s
  | fuel + 1, c :: rest =>
    if pat.isPrefixOf (c :: rest) then
      repl ++ replaceGo pat repl fuel ((c :: rest).drop pat.length)
    else
      c :: replaceGo pat repl fuel rest

/-- Python `s.replace(pat, repl)`.  (The program never calls `replace` with an
empty pattern; that case is mapped to the identity.) -/
def pyReplace (s pat repl : Str) : Str :=
  if pat.isEmpty then s else replaceGo pat repl s.length s

/-- Unicode whitespace codepoints Python `str.strip()` removes, restricted to
the ASCII range actually reachable from manifest text. -/
def isSpaceCode (n : Nat) : Bool :=
  n == 32 || n == 9 || n == 10 || n == 13 || n == 11 || n == 12

/-- Python `s.strip()`. -/
def pyStrip (s : Str) : Str :=
  ((s.dropWhile isSpaceCode).reverse.dropWhile isSpaceCode).reverse

/-- Python `needle in hay` on strings. -/
def strContains : Str → Str → Bool
  | [], needle => needle.isEmpty
  | c :: t, needle => needle.isPrefixOf (c :: t) || strContains t needle

/-- Python `os.path.basename`: the part after the last `/` (codepoint 47). -/
def pyBasename (s : Str) : Str :=
  (s.reverse.takeWhile (fun c => c != 47)).reverse

/-- src/main.py lines 300-307: `loc_str.split(':')[1].strip().split(',')`,
then the first two comma-parts stripped; any index error means an unparsable
location (`none`). -/
def parseLocation (loc : Str) : Option (Str × Str) :=
  match (loc.splitOn 58)[1]? with
  | none => none
  | some part =>
    let coords := (pyStrip part).splitOn 44
    match coords[0]?, coords[1]? with
    | some a, some b => some (pyStrip a, pyStrip b)
    | _, _ => none

/-- Python truthiness of the `lat`/`lon` variables (`None` or a string). -/
def truthy : Option Str → Bool
  | none => false
  | some s => !s.isEmpty

/- ### Fetcher (src/main.py lines 179-191) -/

/-- A downloaded HTTP response: its declared `Content-Type` header and the
interpretation of its body bytes as a ZIP archive (`some` entry names when
`zipfile` accepts the bytes, `none` when it would raise `BadZipFile`). -/
structure HttpResponse where
  content_type : Str
  as_zip : Option (List Str)
deriving DecidableEq

/-- The `for attempt in range(1, max_retries + 1)` loop of
`download_with_retries`, iterating over the list of attempt numbers.  The
network is an oracle from attempt number to `some` response (success) or
`none` (an exception of one of the retried classes).  Returns the result
(`none` = the terminal re-raise, or the fall-through `return None` when the
range is empty), the number of attempts made, and the list of back-off sleeps
taken between consecutive failed attempts. -/
def retryLoop (net : Nat → Option HttpResponse) (max_retries backoff : Nat) :
    List Nat → Option HttpResponse × Nat × List Nat
  | [] => (none, 0, [])
  | attempt :: rest =>
    match net attempt with
    | some response => (some response, 1, [])
    | none =>
      if attempt == max_retries then (none, 1, [])
      else
        let r := retryLoop net max_retries backoff rest
        (r.1, r.2.1 + 1, backoff ^ attempt :: r.2.2)

/-- src/main.py lines 179-191: `download_with_retries` (defaults
`max_retries=3`, `backoff=2` at the call site). -/
def download_with_retries (net : Nat → Option HttpResponse)
    (max_retries backoff : Nat) : Option HttpResponse × Nat × List Nat :=
  retryLoop net max_retries backoff (List.range' 1 max_retries)

/- ### Archive processor (src/main.py lines 194-254) -/

/-- Result of `process_zip_file`: the returned count, the tag maps passed to
the engine per entry (the write trace), and the base filenames relocated into
the destination directory. -/
structure ZipResult where
  count : Nat
  writes : List (Str × List (String × TagVal))
  saved : List Str
deriving DecidableEq

/-- One iteration of the entry loop in `process_zip_file`. -/
def zipStep (env : Env) (date : Str) (lat lon : Option Str)
    (acc : ZipResult) (file_name : Str) : ZipResult :=
  if (codes "/").isSuffixOf file_name then acc
  else if !is_supported_file file_name then acc
  else
    let file_media_type := if is_video_file file_name then codes "video" else codes "image"
    let written :=
      if !((codes ".png").isSuffixOf (pyLower file_name)) && truthy lat && truthy lon then
        let r := set_metadata env file_name date lat lon file_media_type
        let _ := if r.1 then verify_metadata env file_name date lat lon file_media_type
                 else false
        r.2
      else none
    { count := acc.count + 1,
      writes := acc.writes ++ (match written with | some t => [(file_name, t)] | none => []),
      saved := acc.saved ++ [pyBasename file_name] }

/-- src/main.py lines 194-254: `process_zip_file`.  `none` archive bytes model
`zipfile.BadZipFile`, whose handler returns 0. -/
def process_zip_file (env : Env) (zip : Option (List Str)) (date : Str)
    (lat lon : Option Str) : ZipResult :=
  match zip with
  | none => ⟨0, [], []⟩
  | some file_list => file_list.foldl (zipStep env date lat lon) ⟨0, [], []⟩

/- ### Fetch-and-dispatch orchestrator (src/main.py lines 257-382) -/

/-- One manifest record, after `item.get(...)` with the source's defaults. -/
structure SavedItem where
  date : Str
  location : Str
  url : Option Str
  media_type : Str

/-- src/main.py line 289: `item.get("Date", "").replace('-', ':').replace(' UTC', '')`. -/
def recordDate (item : SavedItem) : Str :=
  pyReplace (pyReplace item.date (codes "-") (codes ":")) (codes " UTC") []

/-- src/main.py lines 295-307: location parsing; empty or unparsable →
`lat = lon = None`. -/
def recordLatLon (item : SavedItem) : Option Str × Option Str :=
  if item.location.isEmpty then (none, none)
  else
    match parseLocation item.location with
    | some (a, b) => (some a, some b)
    | none => (none, none)

/-- src/main.py line 323: `date.replace(':', '').replace(' ', '_')`. -/
def safeDate (date : Str) : Str :=
  pyReplace (pyReplace date (codes ":") []) (codes " ") (codes "_")

/-- src/main.py line 324: `f"{media_type}_{safe_date}.{extension}"`. -/
def destFilename (media_type safe_date extension : Str) : Str :=
  media_type ++ codes "_" ++ safe_date ++ codes "." ++ extension

/-- The destination filename computed for a record (src/main.py lines 315-325). -/
def recordFilename (item : SavedItem) : Str :=
  destFilename (pyLower item.media_type) (safeDate (recordDate item))
    (inferExtension (item.url.getD []) (pyLower item.media_type))

/-- src/main.py line 360: the media kind of a directly saved file, inferred
from its filename. -/
def recordFileMediaType (item : SavedItem) : Str :=
  if is_video_file (recordFilename item) then codes "video" else codes "image"

/-- Batch counters plus the contents of the destination directory. -/
structure RunState where
  processed : Nat
  skipped : Nat
  errors : Nat
  files : List Str
deriving DecidableEq

/-- src/main.py lines 286-373: the body of `main`'s per-record loop. -/
def processRecord (env : Env) (net : Nat → Option HttpResponse)
    (item : SavedItem) (st : RunState) : RunState :=
  let date := recordDate item
  if date.isEmpty then { st with errors := st.errors + 1 }
  else
    let ll := recordLatLon item
    let lat := ll.1
    let lon := ll.2
    match item.url with
    | none => { st with errors := st.errors + 1 }
    | some url =>
      if url.isEmpty then { st with errors := st.errors + 1 }
      else
        let filename := recordFilename item
        if st.files.contains filename then { st with skipped := st.skipped + 1 }
        else
          match (download_with_retries net 3 2).1 with
          | none => { st with errors := st.errors + 1 }
          | some response =>
            let content_type := pyLower response.content_type
            if strContains content_type (codes "zip") ||
               strContains content_type (codes "application/zip") then
              let r := process_zip_file env response.as_zip date lat lon
              let st' := { st with files := st.files ++ r.saved }
              if r.count > 0 then { st' with processed := st.processed + r.count }
              else { st' with errors := st.errors + 1 }
            else if strContains content_type (codes "video") ||
                    strContains content_type (codes "image") then
              let st' := { st with files := st.files ++ [filename] }
              let file_media_type := recordFileMediaType item
              if truthy lat && truthy lon then
                let r := set_metadata env filename date lat lon file_media_type
                if r.1 then
                  let _ := verify_metadata env filename date lat lon file_media_type
                  { st' with processed := st.processed + 1 }
                else { st' with errors := st.errors + 1 }
              else { st' with processed := st.processed + 1 }
            else { st with errors := st.errors + 1 }

/-- src/main.py lines 286-373: the whole batch loop, with each record's
download served by its own network oracle. -/
def runBatch (env : Env) (fetch : SavedItem → Nat → Option HttpResponse)
    (items : List SavedItem) (st : RunState) : RunState :=
  items.foldl (fun s item => processRecord env (fetch item) item s) st

/- ### Character-level lemmas for case-insensitivity on the ASCII fragment -/

/-- Whether every codepoint of a string is ASCII. -/
def asciiOnly (s : Str) : Bool := s.all (fun c => c < 128)

theorem lower_upper_char_ascii :
    ∀ n < 128, (pyUpperChar n).flatMap pyLowerChar = pyLowerChar n := by decide

theorem lower_lower_char_ascii :
    ∀ n < 128, (pyLowerChar n).flatMap pyLowerChar = pyLowerChar n := by decide

theorem pyLower_pyUpper_ascii :
    ∀ s : Str, asciiOnly s = true → pyLower (pyUpper s) = pyLower s
  | [], _ => rfl
  | c :: t, h => by
    unfold asciiOnly at h
    rw [List.all_cons, Bool.and_eq_true] at h
    have hc : c < 128 := of_decide_eq_true h.1
    have ih := pyLower_pyUpper_ascii t h.2
    unfold pyLower pyUpper at ih ⊢
    rw [List.flatMap_cons, List.flatMap_append, lower_upper_char_ascii c hc, ih,
      List.flatMap_cons]

theorem pyLower_pyLower_ascii :
    ∀ s : Str, asciiOnly s = true → pyLower (pyLower s) = pyLower s
  | [], _ => rfl
  | c :: t, h => by
    unfold asciiOnly at h
    rw [List.all_cons, Bool.and_eq_true] at h
    have hc : c < 128 := of_decide_eq_true h.1
    have ih := pyLower_pyLower_ascii t h.2
    unfold pyLower at ih ⊢
    rw [List.flatMap_cons, List.flatMap_append, lower_lower_char_ascii c hc, ih]

/-- `List.find?` returns the element at the first index satisfying the test. -/
theorem find?_eq_get_of_first {α : Type} {p : α → Bool} :
    ∀ (l : List α) (i : Fin l.length), p (l.get i) = true →
    (∀ j : Fin l.length, j.val < i.val → p (l.get j) = false) →
    l.find? p = some (l.get i)
  | a :: t, ⟨0, _⟩, hi, _ => by
    simp only [List.get] at hi
    simp [List.find?, hi]
  | a :: t, ⟨k + 1, hk⟩, hi, hmin => by
    have ha : p a = false := hmin ⟨0, Nat.succ_pos _⟩ (Nat.succ_pos k)
    simp only [List.find?, ha]
    exact find?_eq_get_of_first t ⟨k, Nat.lt_of_succ_lt_succ hk⟩ hi
      (fun j hj => hmin ⟨j.val + 1, Nat.succ_lt_succ j.isLt⟩ (Nat.succ_lt_succ hj))

/-- C8 (amended): the membership characterisation and totality hold for every
filename; the case-insensitivity equality
`is_supported_file (upper f) = is_supported_file (lower f)` holds for
ASCII-only filenames, but not in general (see the counterexample: Unicode
codepoints can uppercase into the ASCII extension alphabet). -/
theorem is_supported_file_spec (f : Str) :
    (is_supported_file f = true ↔
      ∃ ext ∈ SUPPORTED_TYPES, ext.isSuffixOf (pyLower f) = true) ∧
    (asciiOnly f = true →
      is_supported_file (pyUpper f) = is_supported_file (pyLower f)) := by
  constructor
  · unfold is_supported_file
    exact List.any_eq_true
  · intro h
    unfold is_supported_file
    rw [pyLower_pyUpper_ascii f h, pyLower_pyLower_ascii f h]

/-- Counterexample to C8 as stated: at "x.heıc" — dotless ı, U+0131, whose
Python uppercase is the ASCII letter I — the uppercased name is supported
while the lowercased name is not, so the claimed equality fails. -/
theorem is_supported_file_case_cex :
    is_supported_file (pyUpper (codes "x.heıc")) = true ∧
    is_supported_file (pyLower (codes "x.heıc")) = false ∧
    ¬ is_supported_file (pyUpper (codes "x.heıc")) =
        is_supported_file (pyLower (codes "x.heıc")) := by
  refine ⟨by decide, by decide, by decide⟩

/-- Witness for C8 (amended) at the ASCII filename "Photo.JPG". -/
theorem is_supported_file_spec_witness :
    asciiOnly (codes "Photo.JPG") = true ∧
    is_supported_file (pyUpper (codes "Photo.JPG")) =
      is_supported_file (pyLower (codes "Photo.JPG")) :=
  ⟨by decide, (is_supported_file_spec (codes "Photo.JPG")).2 (by decide)⟩

/-- C10 claim: every video-classified filename is supported-classified. -/
theorem is_video_file_subset_supported (f : Str) (h : is_video_file f = true) :
    is_supported_file f = true := by
  unfold is_video_file at h
  unfold is_supported_file
  rw [List.any_eq_true] at h ⊢
  obtain ⟨ext, hmem, hsuf⟩ := h
  refine ⟨ext, ?_, hsuf⟩
  have hsub : ∀ e ∈ VIDEO_EXTENSIONS, e ∈ SUPPORTED_TYPES := by decide
  exact hsub ext hmem

/-- Witness for C10 at the concrete filename "clip.MP4". -/
theorem is_video_file_subset_supported_witness :
    is_video_file (codes "clip.MP4") = true ∧
    is_supported_file (codes "clip.MP4") = true :=
  ⟨by decide, is_video_file_subset_supported (codes "clip.MP4") (by decide)⟩

/-- C7 claim: `inferExtension` falls back to the media-kind default when no
supported extension matches, and otherwise returns the first matching
extension in the declared order of `SUPPORTED_TYPES` (dot stripped). -/
theorem inferExtension_spec (url mt : Str) :
    ((∀ ext ∈ SUPPORTED_TYPES, ¬ ext.isSuffixOf (pyLower url) = true) →
      inferExtension url mt =
        (if mt == codes "video" then codes "mp4" else codes "jpg")) ∧
    (∀ i : Fin SUPPORTED_TYPES.length,
      (SUPPORTED_TYPES.get i).isSuffixOf (pyLower url) = true →
      (∀ j : Fin SUPPORTED_TYPES.length, j.val < i.val →
        (SUPPORTED_TYPES.get j).isSuffixOf (pyLower url) = false) →
      inferExtension url mt = lstripDot (SUPPORTED_TYPES.get i)) := by
  constructor
  · intro hnone
    unfold inferExtension
    have : SUPPORTED_TYPES.find? (fun ext => ext.isSuffixOf (pyLower url)) = none := by
      rw [List.find?_eq_none]
      intro x hx
      simp only [Bool.not_eq_true] at hnone ⊢
      exact hnone x hx
    rw [this]
  · intro i hi hmin
    unfold inferExtension
    rw [find?_eq_get_of_first SUPPORTED_TYPES i hi hmin]

/-- Witness for C7: a URL ending in ".jpeg" picks "jpeg"; one matching nothing
falls back to the video default. -/
theorem inferExtension_spec_witness :
    inferExtension (codes "https://x/a.JPEG") (codes "video") = codes "jpeg" := by
  have h := (inferExtension_spec (codes "https://x/a.JPEG") (codes "video")).2
    ⟨1, by decide⟩ (by decide) (by decide)
  exact h.trans (by decide)

/- ### Helper lemmas shared by the claim theorems -/

/-- An entry is counted by the archive loop iff it is not a directory entry
and has a supported extension. -/
def zipEligible (f : Str) : Bool :=
  !((codes "/").isSuffixOf f) && is_supported_file f

theorem zipFold_count (env : Env) (date : Str) (lat lon : Option Str) :
    ∀ (l : List Str) (acc : ZipResult),
      (l.foldl (zipStep env date lat lon) acc).count =
        acc.count + (l.filter zipEligible).length
  | [], acc => by simp
  | f :: t, acc => by
    rw [List.foldl_cons]
    rw [zipFold_count env date lat lon t]
    by_cases h1 : (codes "/").isSuffixOf f
    · simp [zipStep, zipEligible, h1]
    · by_cases h2 : is_supported_file f
      · simp [zipStep, zipEligible, h1, h2, List.filter_cons]
        omega
      · simp [zipStep, zipEligible, h1, h2, List.filter_cons]

theorem retryLoop_cons (net : Nat → Option HttpResponse) (m b attempt : Nat)
    (rest : List Nat) :
    retryLoop net m b (attempt :: rest) =
      match net attempt with
      | some response => (some response, 1, [])
      | none =>
        if attempt == m then (none, 1, [])
        else
          ((retryLoop net m b rest).1, (retryLoop net m b rest).2.1 + 1,
            b ^ attempt :: (retryLoop net m b rest).2.2) := rfl

theorem retryLoop_attempts_le (net : Nat → Option HttpResponse) (m b : Nat) :
    ∀ l : List Nat, (retryLoop net m b l).2.1 ≤ l.length
  | [] => by simp [retryLoop]
  | a :: rest => by
    rw [retryLoop_cons]
    cases hnet : net a with
    | some r => simp
    | none =>
      by_cases hb : (a == m) = true
      · simp [hb]
      · simp only [Bool.not_eq_true] at hb
        simp only [hb, Bool.false_eq_true, if_false, List.length_cons]
        have := retryLoop_attempts_le net m b rest
        omega

theorem retryLoop_all_fail (net : Nat → Option HttpResponse) (m b : Nat)
    (hfail : ∀ i, net i = none) :
    ∀ (k a : Nat), 1 ≤ k → a + k = m + 1 →
      retryLoop net m b (List.range' a k) =
        (none, k, (List.range' a (k - 1)).map (b ^ ·))
  | 0, a, hk, _ => by omega
  | 1, a, _, ha => by
    have ham : (a == m) = true := by simp; omega
    rw [show List.range' a 1 = [a] by simp [List.range']]
    rw [retryLoop_cons, hfail a]
    simp [ham, List.range']
  | k + 2, a, _, ha => by
    have hbeq : (a == m) = false := by simp; omega
    have ih := retryLoop_all_fail net m b hfail (k + 1) (a + 1) (by omega) (by omega)
    rw [List.range'_succ, retryLoop_cons, hfail a]
    simp only [hbeq, Bool.false_eq_true, if_false]
    rw [ih]
    simp [List.range'_succ]

/-- The direct-save dispatch branch of the orchestrator: the file is written
first, then metadata success decides between the processed and error
counters, with the verification result discarded either way. -/
theorem processRecord_direct (env : Env) (net : Nat → Option HttpResponse)
    (item : SavedItem) (st : RunState) (url : Str) (response : HttpResponse)
    (hd : (recordDate item).isEmpty = false)
    (hu : item.url = some url) (hue : url.isEmpty = false)
    (hex : st.files.contains (recordFilename item) = false)
    (hdl : (download_with_retries net 3 2).1 = some response)
    (hzip : (strContains (pyLower response.content_type) (codes "zip") ||
             strContains (pyLower response.content_type) (codes "application/zip")) = false)
    (hmedia : (strContains (pyLower response.content_type) (codes "video") ||
               strContains (pyLower response.content_type) (codes "image")) = true)
    (hgps : (truthy (recordLatLon item).1 && truthy (recordLatLon item).2) = true) :
    processRecord env net item st =
      if (set_metadata env (recordFilename item) (recordDate item)
            (recordLatLon item).1 (recordLatLon item).2 (recordFileMediaType item)).1 then
        { st with processed := st.processed + 1,
                  files := st.files ++ [recordFilename item] }
      else
        { st with errors := st.errors + 1,
                  files := st.files ++ [recordFilename item] } := by
  simp only [processRecord, hd, hu, hue, hex, hdl, hzip, hmedia, hgps,
    Bool.false_eq_true, if_false, if_true, recordFileMediaType]

/-- The already-exists branch of the orchestrator: one skip increment, state
otherwise untouched, independent of the network. -/
theorem processRecord_skip (env : Env) (net : Nat → Option HttpResponse)
    (item : SavedItem) (st : RunState) (url : Str)
    (hd : (recordDate item).isEmpty = false)
    (hu : item.url = some url) (hue : url.isEmpty = false)
    (hex : st.files.contains (recordFilename item) = true) :
    processRecord env net item st = { st with skipped := st.skipped + 1 } := by
  simp only [processRecord, hd, hu, hue, hex, Bool.false_eq_true, if_false, if_true]

theorem runBatch_all_skip (env : Env) (fetch : SavedItem → Nat → Option HttpResponse)
    (files : List Str) :
    ∀ (items : List SavedItem),
      (∀ item ∈ items, (recordDate item).isEmpty = false ∧
        (∃ url, item.url = some url ∧ url.isEmpty = false) ∧
        files.contains (recordFilename item) = true) →
      ∀ p s e, runBatch env fetch items ⟨p, s, e, files⟩ = ⟨p, s + items.length, e, files⟩
  | [], _, p, s, e => by simp [runBatch]
  | item :: rest, h, p, s, e => by
    obtain ⟨hd, ⟨url, hu, hue⟩, hex⟩ := h item (List.mem_cons_self item rest)
    have hstep := processRecord_skip env (fetch item) item ⟨p, s, e, files⟩ url hd hu hue hex
    simp only [runBatch, List.foldl_cons] at *
    rw [hstep]
    have := runBatch_all_skip env fetch files rest
      (fun it hit => h it (List.mem_cons_of_mem item hit)) p (s + 1) e
    simp only [runBatch] at this
    rw [this]
    simp only [List.length_cons, RunState.mk.injEq, eq_self_iff_true, true_and, and_true]
    omega

/- ### Concrete environments and inputs for witnesses -/

/-- The capture date of the spec's end-to-end scenario, after `main`'s
`replace('-', ':')` / `replace(' UTC', '')` normalisation. -/
def demoDate : Str := codes "2024:06:01 12:00:00"

/-- A concrete effect environment: `float()` accepts the two coordinate
strings "44" and "-79" (integral coordinates keep kernel evaluation cheap),
date parsing and the engine write succeed, localisation is the fixed Toronto
conversion of the scenario date, and re-reading yields the written EXIF
coordinates. -/
def demoEnv : Env where
  parse_float := fun s =>
    if s == codes "44" then some 44
    else if s == codes "-79" then some (-79)
    else none
  strptime_ok := fun _ => true
  localize := fun _ => codes "2024:06:01 08:00:00"
  utc_offset := fun _ => codes "-04:00"
  set_tags_ok := fun _ => true
  get_metadata := fun _ =>
    some [[("EXIF:GPSLatitude", .num 44), ("EXIF:GPSLongitude", .num 79)]]

/-- Like `demoEnv` but the re-read coordinates drift far from the expected
ones (latitude 50 under the Composite alias, longitude 10 under EXIF). -/
def demoDriftEnv : Env :=
  { demoEnv with
    get_metadata := fun _ =>
      some [[("Composite:GPSLatitude", .num 50), ("EXIF:GPSLongitude", .num 10)]] }

/-- Like `demoEnv` but every `et.set_tags` call fails. -/
def demoFailEnv : Env := { demoEnv with set_tags_ok := fun _ => false }

/-- Like `demoEnv` but every `et.get_metadata` call raises, so verification
always fails. -/
def demoNoReadEnv : Env := { demoEnv with get_metadata := fun _ => none }

/-- A manifest record with the raw scenario date, a parsable location, a
`.jpg` URL and image media type. -/
def demoItem : SavedItem where
  date := codes "2024-06-01 12:00:00 UTC"
  location := codes "geo: 44, -79"
  url := some (codes "https://cdn/x.jpg")
  media_type := codes "image"

/-- The same record fetched as a `.mp4` video URL. -/
def demoZipItem : SavedItem where
  date := codes "2024-06-01 12:00:00 UTC"
  location := codes "geo: 44, -79"
  url := some (codes "https://cdn/x.mp4")
  media_type := codes "video"

/-- A direct image response. -/
def demoResponse : HttpResponse where
  content_type := codes "image/jpeg"
  as_zip := none

/-- A ZIP response containing the single supported entry `a.jpg`. -/
def demoZipResponse : HttpResponse where
  content_type := codes "application/zip"
  as_zip := some [codes "a.jpg"]

/- ### C3: the video tag map -/

/-- C3 (amended): for a video-kind non-PNG file with parsable coordinates the
tag map passed to the engine is exactly the video tag map, which contains the
composite "lat, lon" coordinate string, signed latitude/longitude in the XMP
namespace, the combined date-time-with-GPS tag, and five (not four)
creation/modification timestamp tags all set to the same localized value. -/
theorem set_metadata_video_tags (env : Env) (file date : Str) (lat lon : Option Str)
    (media_type : Str) (latF lonF : ℚ)
    (hpng : (codes ".png").isSuffixOf (pyLower file) = false)
    (hmt : pyLower media_type = codes "video")
    (hlat : lat.bind env.parse_float = some latF)
    (hlon : lon.bind env.parse_float = some lonF)
    (hdate : env.strptime_ok date = true) :
    (set_metadata env file date lat lon media_type).2 =
      some (video_tags date (env.localize date) latF lonF) ∧
    ("QuickTime:GPSCoordinates", TagVal.pairStr |latF| |lonF|) ∈
      video_tags date (env.localize date) latF lonF ∧
    ("XMP:GPSLatitude", TagVal.num latF) ∈ video_tags date (env.localize date) latF lonF ∧
    ("XMP:GPSLongitude", TagVal.num lonF) ∈ video_tags date (env.localize date) latF lonF ∧
    ("XMP:GPSDateTime", TagVal.str (gpsDateTime date)) ∈
      video_tags date (env.localize date) latF lonF ∧
    ((video_tags date (env.localize date) latF lonF).filter
        (fun p => timestamp_keys.contains p.1)).map Prod.snd =
      List.replicate 5 (TagVal.str (env.localize date)) := by
  refine ⟨?_, ?_, ?_, ?_, ?_, ?_⟩
  · simp [set_metadata, hpng, hlat, hlon, hdate, hmt]
  · simp [video_tags]
  · simp [video_tags]
  · simp [video_tags]
  · simp [video_tags]
  · simp [video_tags, timestamp_keys, List.filter, List.replicate]

/-- Counterexample to C3 as stated: at the scenario input, the number of tag
entries set to the localized timestamp value is five, not four. -/
theorem set_metadata_video_four_timestamps_cex :
    (((set_metadata demoEnv (codes "a.mp4") demoDate (some (codes "44"))
        (some (codes "-79")) (codes "video")).2.getD []).filter
        (fun p => p.2 == TagVal.str (demoEnv.localize demoDate))).length = 5 ∧
    ¬ (((set_metadata demoEnv (codes "a.mp4") demoDate (some (codes "44"))
        (some (codes "-79")) (codes "video")).2.getD []).filter
        (fun p => p.2 == TagVal.str (demoEnv.localize demoDate))).length = 4 := by
  constructor <;> decide

/-- Witness for C3 (amended) at the scenario input. -/
theorem set_metadata_video_tags_witness :
    (set_metadata demoEnv (codes "a.mp4") demoDate (some (codes "44"))
      (some (codes "-79")) (codes "video")).2 =
    some (video_tags demoDate (demoEnv.localize demoDate) 44 (-79)) :=
  (set_metadata_video_tags demoEnv (codes "a.mp4") demoDate
    (some (codes "44")) (some (codes "-79")) (codes "video") 44 (-79)
    (by decide) (by decide) (by decide) (by decide) (by decide)).1

/- ### C4: image verification is lenient on drift, strict on absence -/

/-- C4: for an image-kind file whose re-read metadata holds latitude and
longitude under one of the accepted aliases each, with float-parsable values,
verification returns success whatever the drift from the expected coordinates;
if either coordinate is absent it returns failure. -/
theorem verify_metadata_image_spec (env : Env) (file date : Str) (lat lon : Option Str)
    (media_type : Str) (mds : List (List (String × MetaVal)))
    (fm : List (String × MetaVal)) (latQ lonQ : ℚ)
    (hmeta : env.get_metadata file = some mds)
    (hhead : mds.head? = some fm)
    (hlat : lat.bind env.parse_float = some latQ)
    (hlon : lon.bind env.parse_float = some lonQ)
    (hkind : (pyLower media_type == codes "video" || is_video_file file) = false) :
    (∀ lm lom fl fo,
      lookupFirstKey fm ["EXIF:GPSLatitude", "Composite:GPSLatitude"] = some lm →
      lookupFirstKey fm ["EXIF:GPSLongitude", "Composite:GPSLongitude"] = some lom →
      parseMetaFloat lm = some fl → parseMetaFloat lom = some fo →
      verify_metadata env file date lat lon media_type = true) ∧
    ((lookupFirstKey fm ["EXIF:GPSLatitude", "Composite:GPSLatitude"] = none ∨
      lookupFirstKey fm ["EXIF:GPSLongitude", "Composite:GPSLongitude"] = none) →
      verify_metadata env file date lat lon media_type = false) := by
  constructor
  · intro lm lom fl fo hlm hlom hfl hfo
    unfold verify_metadata
    rw [hmeta]
    simp only [hhead, hlat, hlon, hkind, Bool.false_eq_true, if_false, hlm, hlom, hfl, hfo]
    split <;> rfl
  · intro habs
    unfold verify_metadata
    rw [hmeta]
    simp only [hhead, hlat, hlon, hkind, Bool.false_eq_true, if_false]
    rcases habs with h | h
    · rw [h]
    · rw [h]
      cases lookupFirstKey fm ["EXIF:GPSLatitude", "Composite:GPSLatitude"] <;> rfl

/-- Witness for C4: re-read coordinates (50, 10) drifting by 6 respectively 69
degrees from the expected (44, -79) — far beyond the 0.001 tolerance — still
verify as success. -/
theorem verify_metadata_image_spec_witness :
    verify_metadata demoDriftEnv (codes "a.jpg") demoDate (some (codes "44"))
      (some (codes "-79")) (codes "image") = true ∧
    |(50 : ℚ)| ≠ |(44 : ℚ)| ∧ |(10 : ℚ)| ≠ |(-79 : ℚ)| :=
  ⟨(verify_metadata_image_spec demoDriftEnv (codes "a.jpg") demoDate
      (some (codes "44")) (some (codes "-79")) (codes "image")
      [[("Composite:GPSLatitude", .num 50), ("EXIF:GPSLongitude", .num 10)]]
      [("Composite:GPSLatitude", .num 50), ("EXIF:GPSLongitude", .num 10)]
      44 (-79)
      (by decide) (by decide) (by decide) (by decide) (by decide)).1
    (.num 50) (.num 10) 50 10 (by decide) (by decide) rfl rfl,
   by decide, by decide⟩

/- ### C5: the archive processor's success count -/

/-- C5: `process_zip_file` returns the number of supported non-directory
entries, counting each such entry regardless of the metadata oracle (so also
when the engine write fails, and PNG entries included); on the two-entry
scenario archive it returns 2 with tags written only for `a.jpg`. -/
theorem process_zip_file_count_spec :
    (∀ (env : Env) (entries : List Str) (date : Str) (lat lon : Option Str),
      (process_zip_file env (some entries) date lat lon).count =
        (entries.filter zipEligible).length) ∧
    process_zip_file demoEnv (some [codes "a.jpg", codes "b.png"]) demoDate
        (some (codes "44")) (some (codes "-79")) =
      ⟨2,
       [(codes "a.jpg",
         image_tags (demoEnv.localize demoDate) (demoEnv.utc_offset demoDate) 44 (-79))],
       [codes "a.jpg", codes "b.png"]⟩ ∧
    (process_zip_file demoFailEnv (some [codes "a.jpg", codes "b.png"]) demoDate
        (some (codes "44")) (some (codes "-79"))).count = 2 := by
  refine ⟨?_, by decide, by decide⟩
  intro env entries date lat lon
  unfold process_zip_file
  rw [zipFold_count]
  simp

/- ### C6: PNG files never reach the engine but still count -/

/-- C6: for a filename ending in `.png` (case-insensitively), `set_metadata`
returns success without ever invoking the engine write; an archive holding
only a `.png` entry yields a processed count of 1 with an empty write trace,
for every environment and GPS input. -/
theorem png_never_tagged (env : Env) (file date : Str) (lat lon : Option Str)
    (media_type : Str)
    (hpng : (codes ".png").isSuffixOf (pyLower file) = true) :
    set_metadata env file date lat lon media_type = (true, none) ∧
    ∀ (env' : Env) (d : Str) (la lo : Option Str),
      process_zip_file env' (some [codes "only.png"]) d la lo =
        ⟨1, [], [codes "only.png"]⟩ := by
  constructor
  · simp [set_metadata, hpng]
  · intro env' d la lo
    have h1 : (codes "/").isSuffixOf (codes "only.png") = false := by decide
    have h2 : is_supported_file (codes "only.png") = true := by decide
    have h3 : (codes ".png").isSuffixOf (pyLower (codes "only.png")) = true := by decide
    have h4 : pyBasename (codes "only.png") = codes "only.png" := by decide
    simp [process_zip_file, zipStep, h1, h2, h3, h4]

/-- Witness for C6 at the uppercase filename "x.PNG" and the demo inputs. -/
theorem png_never_tagged_witness :
    set_metadata demoEnv (codes "x.PNG") demoDate (some (codes "44"))
      (some (codes "-79")) (codes "image") = (true, none) ∧
    process_zip_file demoEnv (some [codes "only.png"]) demoDate
      (some (codes "44")) (some (codes "-79")) = ⟨1, [], [codes "only.png"]⟩ :=
  ⟨(png_never_tagged demoEnv (codes "x.PNG") demoDate (some (codes "44"))
      (some (codes "-79")) (codes "image") (by decide)).1,
   (png_never_tagged demoEnv (codes "x.PNG") demoDate (some (codes "44"))
      (some (codes "-79")) (codes "image") (by decide)).2 demoEnv demoDate
      (some (codes "44")) (some (codes "-79"))⟩

/- ### C9: bounded retries with exponential backoff -/

/-- C9: the retry loop makes at most `max_retries` attempts; when every
attempt fails it returns the terminal failure after exactly `max_retries`
attempts, having slept `backoff ^ attempt` seconds after each non-final
failed attempt; and the orchestrator turns that terminal failure into exactly
one error-counter increment for the record. -/
theorem download_with_retries_spec (net : Nat → Option HttpResponse)
    (max_retries backoff : Nat) (hmax : 1 ≤ max_retries)
    (hfail : ∀ i, net i = none) :
    (∀ net' : Nat → Option HttpResponse,
      (download_with_retries net' max_retries backoff).2.1 ≤ max_retries) ∧
    download_with_retries net max_retries backoff =
      (none, max_retries, (List.range' 1 (max_retries - 1)).map (backoff ^ ·)) ∧
    (∀ (env : Env) (item : SavedItem) (st : RunState) (url : Str),
      (recordDate item).isEmpty = false → item.url = some url → url.isEmpty = false →
      st.files.contains (recordFilename item) = false →
      processRecord env net item st = { st with errors := st.errors + 1 }) := by
  refine ⟨?_, ?_, ?_⟩
  · intro net'
    have h := retryLoop_attempts_le net' max_retries backoff (List.range' 1 max_retries)
    simpa [download_with_retries] using h
  · unfold download_with_retries
    exact retryLoop_all_fail net max_retries backoff hfail max_retries 1 hmax (by omega)
  · intro env item st url hd hu hue hex
    have hdl : (download_with_retries net 3 2).1 = none := by
      rw [show download_with_retries net 3 2 =
            retryLoop net 3 2 (List.range' 1 3) from rfl]
      rw [retryLoop_all_fail net 3 2 hfail 3 1 (by omega) (by omega)]
    simp only [processRecord, hd, hu, hue, hex, hdl, Bool.false_eq_true, if_false]

/-- Witness for C9: with an always-failing network, three attempts are made
with sleeps of 2 and 4 seconds, and a valid unseen record becomes exactly one
error. -/
theorem download_with_retries_spec_witness :
    download_with_retries (fun _ => none) 3 2 = (none, 3, [2, 4]) ∧
    processRecord demoEnv (fun _ => none) demoItem ⟨0, 0, 0, []⟩ = ⟨0, 0, 1, []⟩ :=
  ⟨((download_with_retries_spec (fun _ => none) 3 2 (by decide)
      (fun _ => rfl)).2.1).trans (by decide),
   ((download_with_retries_spec (fun _ => none) 3 2 (by decide)
      (fun _ => rfl)).2.2 demoEnv demoItem ⟨0, 0, 0, []⟩ (codes "https://cdn/x.jpg")
      (by decide) rfl (by decide) (by decide)).trans (by decide)⟩

/- ### C1: what a metadata-only failure does to the counters -/

/-- Counterexample to C1 as stated: a record fetched successfully as a direct
image whose engine write fails (`demoFailEnv`) keeps the file on disk but
increments the error counter from 0 to 1. -/
theorem metadata_failure_increments_errors_cex :
    processRecord demoFailEnv (fun _ => some demoResponse) demoItem ⟨0, 0, 0, []⟩ =
      ⟨0, 0, 1, [codes "image_20240601_120000.jpg"]⟩ ∧
    ¬ (processRecord demoFailEnv (fun _ => some demoResponse) demoItem
        ⟨0, 0, 0, []⟩).errors = 0 := by
  constructor <;> decide

/-- C1 (amended): in the direct-save path the file is written to disk first,
then (a) if the engine write succeeds the record counts as processed and the
error counter is untouched whatever verification does (the environment, and
with it the verification outcome, is arbitrary); (b) if the engine write
fails the file is still on disk but the error counter is incremented — unlike
the archive path, where (c) the returned count never depends on the
environment, so a metadata failure there leaves the batch totals unchanged. -/
theorem partial_write_failure_spec :
    (∀ (env : Env) (net : Nat → Option HttpResponse) (item : SavedItem)
       (st : RunState) (url : Str) (response : HttpResponse),
      (recordDate item).isEmpty = false → item.url = some url → url.isEmpty = false →
      st.files.contains (recordFilename item) = false →
      (download_with_retries net 3 2).1 = some response →
      (strContains (pyLower response.content_type) (codes "zip") ||
       strContains (pyLower response.content_type) (codes "application/zip")) = false →
      (strContains (pyLower response.content_type) (codes "video") ||
       strContains (pyLower response.content_type) (codes "image")) = true →
      (truthy (recordLatLon item).1 && truthy (recordLatLon item).2) = true →
      ((set_metadata env (recordFilename item) (recordDate item)
          (recordLatLon item).1 (recordLatLon item).2 (recordFileMediaType item)).1 = true →
        processRecord env net item st =
          { st with processed := st.processed + 1,
                    files := st.files ++ [recordFilename item] }) ∧
      ((set_metadata env (recordFilename item) (recordDate item)
          (recordLatLon item).1 (recordLatLon item).2 (recordFileMediaType item)).1 = false →
        processRecord env net item st =
          { st with errors := st.errors + 1,
                    files := st.files ++ [recordFilename item] })) ∧
    (∀ (env env' : Env) (entries : List Str) (d : Str) (la lo : Option Str),
      (process_zip_file env (some entries) d la lo).count =
        (process_zip_file env' (some entries) d la lo).count) := by
  constructor
  · intro env net item st url response hd hu hue hex hdl hzip hmedia hgps
    have h := processRecord_direct env net item st url response
      hd hu hue hex hdl hzip hmedia hgps
    constructor
    · intro hset
      rw [h, if_pos hset]
    · intro hset
      rw [h, if_neg (by simp [hset])]
  · intro env env' entries d la lo
    unfold process_zip_file
    rw [zipFold_count, zipFold_count]

/-- Witness for C1 (amended), part (a) with a failing verification: the
engine write succeeds but every metadata re-read raises (`demoNoReadEnv`), so
verification returns failure — yet the record is counted processed with zero
errors. -/
theorem partial_write_failure_spec_witness :
    processRecord demoNoReadEnv (fun _ => some demoResponse) demoItem ⟨0, 0, 0, []⟩ =
      ⟨1, 0, 0, [codes "image_20240601_120000.jpg"]⟩ ∧
    verify_metadata demoNoReadEnv (codes "image_20240601_120000.jpg") demoDate
      (some (codes "44")) (some (codes "-79")) (codes "image") = false :=
  ⟨((partial_write_failure_spec.1 demoNoReadEnv (fun _ => some demoResponse)
      demoItem ⟨0, 0, 0, []⟩ (codes "https://cdn/x.jpg") demoResponse
      (by decide) rfl (by decide) (by decide) (by decide) (by decide) (by decide)
      (by decide)).1 (by decide)).trans (by decide),
   by decide⟩

/- ### C2: idempotent re-runs -/

/-- Counterexample to C2 as stated: a one-record manifest answered with a ZIP
archive.  The first run is fully successful (processed 1, no errors, entry
`a.jpg` saved), yet the second run over the resulting directory skips nothing
and re-processes the archive, because the computed destination path
`video_20240601_120000.mp4` is never created by the archive path. -/
theorem second_run_zip_cex :
    runBatch demoEnv (fun _ _ => some demoZipResponse) [demoZipItem] ⟨0, 0, 0, []⟩ =
      ⟨1, 0, 0, [codes "a.jpg"]⟩ ∧
    (runBatch demoEnv (fun _ _ => some demoZipResponse) [demoZipItem]
        ⟨0, 0, 0, [codes "a.jpg"]⟩).skipped = 0 ∧
    (runBatch demoEnv (fun _ _ => some demoZipResponse) [demoZipItem]
        ⟨0, 0, 0, [codes "a.jpg"]⟩).processed = 1 ∧
    ¬ ((runBatch demoEnv (fun _ _ => some demoZipResponse) [demoZipItem]
          ⟨0, 0, 0, [codes "a.jpg"]⟩).skipped = 1 ∧
       (runBatch demoEnv (fun _ _ => some demoZipResponse) [demoZipItem]
          ⟨0, 0, 0, [codes "a.jpg"]⟩).processed = 0) := by
  refine ⟨by decide, by decide, by decide, by decide⟩

/-- C2 (amended): a record whose computed destination path already exists is
never re-downloaded — the outcome is one skip increment, independent of the
network; consequently a second run over a directory that already contains
every record's computed destination path yields `skipped = total` and
`processed = 0`.  (After a successful first run this holds for direct-media
records, which create exactly that path, but not in general for ZIP records,
which save entries under their own base names — see the counterexample.) -/
theorem idempotent_rerun_spec :
    (∀ (env : Env) (net net' : Nat → Option HttpResponse) (item : SavedItem)
       (st : RunState) (url : Str),
      (recordDate item).isEmpty = false → item.url = some url → url.isEmpty = false →
      st.files.contains (recordFilename item) = true →
      processRecord env net item st = { st with skipped := st.skipped + 1 } ∧
      processRecord env net item st = processRecord env net' item st) ∧
    (∀ (env : Env) (fetch : SavedItem → Nat → Option HttpResponse)
       (items : List SavedItem) (files : List Str),
      (∀ item ∈ items, (recordDate item).isEmpty = false ∧
        (∃ url, item.url = some url ∧ url.isEmpty = false) ∧
        files.contains (recordFilename item) = true) →
      runBatch env fetch items ⟨0, 0, 0, files⟩ = ⟨0, items.length, 0, files⟩) := by
  constructor
  · intro env net net' item st url hd hu hue hex
    have h1 := processRecord_skip env net item st url hd hu hue hex
    have h2 := processRecord_skip env net' item st url hd hu hue hex
    exact ⟨h1, h1.trans h2.symm⟩
  · intro env fetch items files h
    simpa using runBatch_all_skip env fetch files items h 0 0 0

/-- Witness for C2 (amended): a second run of the one-record direct-media
manifest over a directory already holding `image_20240601_120000.jpg` skips
the single record and processes nothing. -/
theorem idempotent_rerun_spec_witness :
    runBatch demoEnv (fun _ _ => some demoResponse) [demoItem]
      ⟨0, 0, 0, [codes "image_20240601_120000.jpg"]⟩ =
      ⟨0, 1, 0, [codes "image_20240601_120000.jpg"]⟩ :=
  (idempotent_rerun_spec.2 demoEnv (fun _ _ => some demoResponse) [demoItem]
    [codes "image_20240601_120000.jpg"]
    (by
      intro item hmem
      rw [List.mem_singleton] at hmem
      subst hmem
      exact ⟨by decide, ⟨codes "https://cdn/x.jpg", rfl, by decide⟩, by decide⟩)).trans
    (by decide)

end SnapDL
